import Mathlib

/-!
# Verification of the heartbeat-acquisition frame decoder and capture pipeline

Shallow embedding of the Rust sources of `heartbeat-acquisition-rs`:

* `src/capture/data.rs` — `DataPointFlags::parse`, `DataPoint::parse`
* `src/capture/file.rs` — `CaptureFileWriter` (`write_line`, `comment`, `init`)
* `src/service/storage/mod.rs` — the offload-queue drain loop inside
  `StorageServiceInner::connect`
* `src/main.rs` — the read-error handling of the acquisition loop

Machine integers are embedded as `Nat`/`Int` with explicit `% 2^64` where the
Rust code wraps (`sum += value as u64` accumulates in a `u64`).  Rust `f32`/
`f64` values produced by decimal parsing and by exact power-of-two arithmetic
are embedded as `ℚ`: every value the claims mention ((r − 512)/512.0 for small
raw samples) is exactly representable in the floating formats, so the rational
embedding is faithful there.  A Rust function that can panic is embedded with
result type `Option (Except String α)`: `none` models a panic, `some (.error e)`
models `Err(e)`, `some (.ok a)` models `Ok(a)`.
-/

/-- Result of a Rust function returning `Result<α, String>` that may also
panic: `none` = panic, `some (.error e)` = `Err(e)`, `some (.ok a)` = `Ok(a)`. -/
abbrev PResult (α : Type) := Option (Except String α)

/-- `2^64`, the modulus of Rust `u64` arithmetic. -/
def u64Mod : Nat := 2 ^ 64

/-- Rust `value as u64` for `value : i64`: two's-complement reinterpretation,
i.e. the representative of `value` modulo `2^64` in `[0, 2^64)`. -/
def i64AsU64 (v : Int) : Nat := (v % (u64Mod : Int)).toNat

/-- Digit string to number, most significant first (accumulator form, as the
integer parsers accumulate). -/
def digitsToNat (cs : List Char) : Nat :=
  cs.foldl (fun a c => a * 10 + (c.toNat - 48)) 0

/-- A nonempty all-digit character list parses to its value; anything else is
rejected.  Building block for the Rust `from_str` integer parsers. -/
def parseNatStrict (cs : List Char) : Option Nat :=
  if cs ≠ [] ∧ cs.all Char.isDigit then some (digitsToNat cs) else none

/-- Embedding of Rust `str::parse::<i64>()` (`i64::from_str`): optional sign,
then a nonempty digit string, rejected on overflow past the `i64` range. -/
def parseI64 (s : String) : Option Int :=
  match s.data with
  | '-' :: r =>
    match parseNatStrict r with
    | some n => if n ≤ 2 ^ 63 then some (-(n : Int)) else none
    | none => none
  | '+' :: r =>
    match parseNatStrict r with
    | some n => if n ≤ 2 ^ 63 - 1 then some (n : Int) else none
    | none => none
  | cs =>
    match parseNatStrict cs with
    | some n => if n ≤ 2 ^ 63 - 1 then some (n : Int) else none
    | none => none

/-- Embedding of Rust `str::parse::<u16>()` (`u16::from_str`): optional `+`,
then a nonempty digit string, rejected on overflow past the `u16` range. -/
def parseU16 (s : String) : Option Nat :=
  match s.data with
  | '+' :: r =>
    match parseNatStrict r with
    | some n => if n < 2 ^ 16 then some n else none
    | none => none
  | cs =>
    match parseNatStrict cs with
    | some n => if n < 2 ^ 16 then some n else none
    | none => none

/-- Embedding of `atoi::atoi::<u64>` from the `atoi` crate, used on the
checksum token: reads the longest digit prefix of the byte slice, `none` when
the slice does not start with a digit (and on `u64` overflow of the prefix). -/
def atoiU64 (s : String) : Option Nat :=
  let ds := s.data.takeWhile Char.isDigit
  if ds = [] then none
  else if digitsToNat ds < u64Mod then some (digitsToNat ds) else none

/-- Embedding of Rust `str::parse::<f32>()` restricted to finite decimal
literals, with the value taken exactly (as a rational) rather than rounded to
`f32`: mantissa part `digits`, `digits.digits`, `digits.` or `.digits`,
returned as an exact numerator/denominator pair. -/
def parseMantissa (cs : List Char) : Option (Int × Nat) :=
  let ip := cs.takeWhile Char.isDigit
  let rest := cs.drop ip.length
  match rest with
  | [] => if ip = [] then none else some ((digitsToNat ip : Int), 1)
  | '.' :: fp =>
    if fp.all Char.isDigit ∧ (ip ≠ [] ∨ fp ≠ []) then
      some (((digitsToNat ip * 10 ^ fp.length + digitsToNat fp : Nat) : Int),
        10 ^ fp.length)
    else none
  | _ => none

/-- Optional exponent part after `e`/`E`: optional sign then nonempty digits. -/
def parseExponent (cs : List Char) : Option Int :=
  match cs with
  | '-' :: r => (parseNatStrict r).map (fun n => -(n : Int))
  | '+' :: r => (parseNatStrict r).map (fun n => (n : Int))
  | r => (parseNatStrict r).map (fun n => (n : Int))

/-- Splits at the first `e`/`E` and combines mantissa and exponent.  `inf` and
`nan` literals are outside the fragment the program's frames use and are not
modelled (they are rejected here). -/
def parseF32 (s : String) : Option ℚ :=
  let (neg, cs) :=
    match s.data with
    | '-' :: r => (true, r)
    | '+' :: r => (false, r)
    | r => (false, r)
  let signed : Int → Int := fun n => if neg then -n else n
  let mant := cs.takeWhile (fun c => c ≠ 'e' ∧ c ≠ 'E')
  let rest := cs.drop mant.length
  match rest with
  | [] => (parseMantissa mant).map (fun p => mkRat (signed p.1) p.2)
  | _ :: er =>
    match parseMantissa mant, parseExponent er with
    | some p, some e =>
      match e with
      | Int.ofNat k => some (mkRat (signed (p.1 * 10 ^ k)) p.2)
      | Int.negSucc k => some (mkRat (signed p.1) (p.2 * 10 ^ (k + 1)))
    | _, _ => none

/-- Rust `line.split(',')` on the character list: yields `[[]]` on the empty
string, preserves empty segments. -/
def splitCommaChars : List Char → List (List Char)
  | [] => [[]]
  | c :: r =>
    if c = ',' then [] :: splitCommaChars r
    else
      match splitCommaChars r with
      | h :: t => (c :: h) :: t
      | [] => [[c]]

/-- Rust `line.split(',')` as a list of tokens. -/
def splitComma (s : String) : List String :=
  (splitCommaChars s.data).map String.mk

/-- `data.rs` lines 106–110: strip one leading `$` if present. -/
def stripDollar (s : String) : String :=
  match s.data with
  | '$' :: r => String.mk r
  | _ => s

/-- `DataPointFlags` (`data.rs` lines 3–7). -/
structure DataPointFlags where
  has_gps_fix : Bool
  is_clipping : Bool
deriving DecidableEq, Repr

/-- `DataPointFlags::new` (`data.rs` lines 31–36). -/
def DataPointFlags.new : DataPointFlags :=
  { has_gps_fix := false, is_clipping := false }

/-- `DataPointFlags::parse` (`data.rs` lines 38–50): sets `has_gps_fix` iff the
input contains the character `G`, `is_clipping` iff it contains `O`; always
returns `Ok`. -/
def DataPointFlags.parse (line : String) : Except String DataPointFlags :=
  Except.ok
    { has_gps_fix := line.data.contains 'G'
      is_clipping := line.data.contains 'O' }

/-- `DataPoint` (`data.rs` lines 53–65), with `f32`/`f64` fields embedded as
`ℚ` and `u16` as `Nat`. -/
structure DataPoint where
  timestamp : Option Int
  sample_rate : ℚ
  flags : DataPointFlags
  latitude : ℚ
  longitude : ℚ
  elevation : ℚ
  speed : ℚ
  angle : ℚ
  fix : Nat
  data : List ℚ
deriving DecidableEq, Repr

deriving instance DecidableEq for Except

/-- `DataPoint::has_gps_fix` (`data.rs` lines 69–71). -/
def DataPoint.has_gps_fix (d : DataPoint) : Bool := d.flags.has_gps_fix

/-- `DataPoint::is_clipping` (`data.rs` lines 73–75). -/
def DataPoint.is_clipping (d : DataPoint) : Bool := d.flags.is_clipping

/-- `DataPoint::satellite_count` (`data.rs` lines 210–212). -/
def DataPoint.satellite_count (d : DataPoint) : Nat := d.fix

/-- The normalization applied to each raw sample in the parse loop
(`data.rs` line 185): `(value - 512) as f64 / 512.0` — `i64` subtraction, then
an exact `f64` division by the power of two 512, embedded exactly in `ℚ`. -/
def normalizeSample (value : Int) : ℚ := mkRat (value - 512) 512

/-- The sample loop of `DataPoint::parse` (`data.rs` lines 174–186): reads
`count` tokens, each parsed as `i64` (`Err("Failed to parse data")` on
failure, `Err("Missing data")` on exhaustion), accumulates
`sum += value as u64` in wrapping `u64` arithmetic, and pushes
`(value - 512) as f64 / 512.0`.  Returns the normalized data, the final
accumulator and the remaining tokens. -/
def parseSamples : Nat → Nat → List String → PResult (List ℚ × Nat × List String)
  | 0, sum, parts => some (Except.ok ([], sum, parts))
  | n + 1, sum, parts =>
    match parts with
    | [] => some (Except.error "Missing data")
    | part :: parts =>
      match parseI64 part with
      | none => some (Except.error "Failed to parse data")
      | some value =>
        match parseSamples n ((sum + i64AsU64 value) % u64Mod) parts with
        | none => none
        | some (Except.error e) => some (Except.error e)
        | some (Except.ok (ds, s, ps)) =>
          some (Except.ok (normalizeSample value :: ds, s, ps))

/-- `DataPoint::parse` after tokenization (`data.rs` lines 112–207): consumes
the comma-separated tokens in order — timestamp (unparseable ⇒ `None`, not an
error), flags, sample rate, latitude, longitude, elevation, fix, speed, angle,
data count, `count` samples, checksum.  The checksum token is parsed with
`atoi(...).unwrap()` (line 188): an unparseable token is a panic (`none`),
not an `Err`.  A checksum different from the wrapped sample sum yields
`Err("Checksum failed")`. -/
def parseFields (parts : List String) : PResult DataPoint :=
  match parts with
  | [] => some (Except.error "Missing timestamp")
  | part :: parts =>
  let timestamp := parseI64 part
  match parts with
  | [] => some (Except.error "Missing flags")
  | part :: parts =>
  match DataPointFlags.parse part with
  | Except.error _ => some (Except.error "Failed to parse flags")
  | Except.ok flags =>
  match parts with
  | [] => some (Except.error "Missing sample rate")
  | part :: parts =>
  match parseF32 part with
  | none => some (Except.error "Failed to parse sample rate")
  | some sample_rate =>
  match parts with
  | [] => some (Except.error "Missing latitude")
  | part :: parts =>
  match parseF32 part with
  | none => some (Except.error "Failed to parse latitude")
  | some latitude =>
  match parts with
  | [] => some (Except.error "Missing longitude")
  | part :: parts =>
  match parseF32 part with
  | none => some (Except.error "Failed to parse longitude")
  | some longitude =>
  match parts with
  | [] => some (Except.error "Missing elevation")
  | part :: parts =>
  match parseF32 part with
  | none => some (Except.error "Failed to parse elevation")
  | some elevation =>
  match parts with
  | [] => some (Except.error "Missing fix")
  | part :: parts =>
  match parseU16 part with
  | none => some (Except.error "Failed to parse fix")
  | some fix =>
  match parts with
  | [] => some (Except.error "Missing speed")
  | part :: parts =>
  match parseF32 part with
  | none => some (Except.error "Failed to parse speed")
  | some speed =>
  match parts with
  | [] => some (Except.error "Missing angle")
  | part :: parts =>
  match parseF32 part with
  | none => some (Except.error "Failed to parse angle")
  | some angle =>
  match parts with
  | [] => some (Except.error "Missing data count")
  | part :: parts =>
  match parseU16 part with
  | none => some (Except.error "Failed to parse data count")
  | some data_count =>
  match parseSamples data_count 0 parts with
  | none => none
  | some (Except.error e) => some (Except.error e)
  | some (Except.ok (data, sum, parts)) =>
  match parts with
  | [] => some (Except.error "Missing checksum")
  | part :: _ =>
  match atoiU64 part with
  | none => none
  | some checksum =>
  if checksum ≠ sum then some (Except.error "Checksum failed")
  else
    some (Except.ok
      { timestamp := timestamp
        sample_rate := sample_rate
        flags := flags
        latitude := latitude
        longitude := longitude
        elevation := elevation
        speed := speed
        angle := angle
        fix := fix
        data := data })

/-- `DataPoint::parse` (`data.rs` lines 105–208): strip a leading `$`, split
on commas, then consume fields. -/
def DataPoint.parse (line : String) : PResult DataPoint :=
  parseFields (splitComma (stripDollar line))

/-! ## The capture-file writer (`src/capture/file.rs`)

`CaptureFileWriter` holds an open file and a line counter.  The embedding
keeps the byte content appended to the file (as a `String`), whether all
appended bytes have been flushed, and the `lines_written` counter.  The wall
clock read inside `write_line` (`SystemTime::now()`, formatted through
`as_secs_f64().to_string()`) is passed in as the already-formatted string
`now`, since real time is external input to the function. -/

/-- The mutable state of `CaptureFileWriter` (`file.rs` lines 69–76) that the
claims concern: appended file content, flush status, `lines_written`. -/
structure CaptureWriterState where
  contents : String
  flushed : Bool
  lines_written : Nat
deriving DecidableEq, Repr

/-- `CaptureFileWriter::new` (`file.rs` lines 79–107): fresh empty file,
`lines_written: 0`. -/
def CaptureWriterState.new : CaptureWriterState :=
  { contents := "", flushed := true, lines_written := 0 }

/-- `CaptureFileWriter::init` (`file.rs` lines 109–112): `write_all` of the
metadata header string; no flush, and `lines_written` is not touched. -/
def CaptureWriterState.init (metadataStr : String) (w : CaptureWriterState) :
    CaptureWriterState :=
  { w with contents := w.contents ++ metadataStr, flushed := false }

/-- `CaptureFileWriter::write_line` (`file.rs` lines 120–135): builds
`complete_line = now ++ "," ++ line` where `now` is the epoch time in seconds
rendered by `as_secs_f64().to_string()`, writes it, flushes, and increments
`lines_written` by one. -/
def CaptureWriterState.write_line (now line : String) (w : CaptureWriterState) :
    CaptureWriterState :=
  { contents := w.contents ++ (now ++ "," ++ line)
    flushed := true
    lines_written := w.lines_written + 1 }

/-- `CaptureFileWriter::comment` (`file.rs` lines 153–155): delegates to
`write_line` with `format!("# {}\n", comment)`. -/
def CaptureWriterState.comment (now c : String) (w : CaptureWriterState) :
    CaptureWriterState :=
  w.write_line now ("# " ++ c ++ "\n")

/-- The operations that complete on a `CaptureFileWriter` and return to the
caller.  (`write_data` is omitted: its body calls `DataPoint::to_string`,
which is `todo!()` and therefore always panics before touching any state.) -/
inductive WriterOp where
  | init (metadataStr : String)
  | write_line (now line : String)
  | comment (now c : String)
deriving DecidableEq, Repr

/-- Apply one writer operation to the writer state. -/
def applyWriterOp (op : WriterOp) (w : CaptureWriterState) : CaptureWriterState :=
  match op with
  | WriterOp.init m => w.init m
  | WriterOp.write_line now line => w.write_line now line
  | WriterOp.comment now c => w.comment now c

/-! ## The offload-queue drain tick (`src/service/storage/mod.rs`)

`StorageServiceInner::connect` (lines 201–218) spawns a worker whose poll
tick drains the upload FIFO: `while let Some(upload) = queue.pop_front()`,
attempt the upload; on `Ok` continue with the next head; on `Err` push the
task back onto the tail (`queue.push_back(upload)`) and `break` out of the
drain for this tick.  The uploader outcome is a function of the (1-based)
attempt number within the tick and the task. -/

/-- `UploadArgs` (`storage/mod.rs` lines 106–111). -/
structure UploadArgs where
  bucket_name : String
  file_path : String
  object_path : String
deriving DecidableEq, Repr

/-- One poll tick of the storage worker's drain loop (`storage/mod.rs` lines
201–218).  `upload a t = true` means `do_upload` returns `Ok` on the `a`-th
attempt of this tick.  Returns the queue left when the tick's drain ends. -/
def drainTick (upload : Nat → UploadArgs → Bool) :
    Nat → List UploadArgs → List UploadArgs
  | _, [] => []
  | a, t :: rest =>
    if upload a t then drainTick upload (a + 1) rest
    else rest ++ [t]

/-! ## Read-error handling of the acquisition loop (`src/main.rs`)

One iteration of `main`'s `while` loop reads a line in a blocking task and
matches on three layers: the 2-second `tokio::time::timeout`, the task join,
and the task's own `Result`.  The embedding maps every possible outcome of
that match to what the iteration does next: carry on with the line, jump to
the next iteration (`continue`), or leave the loop — the loop is only ever
left when the `shutdown` flag flips, never from this match. -/

/-- The `std::io::ErrorKind` values relevant to the serial read. -/
inductive IoErrorKind where
  | brokenPipe
  | timedOut
  | other
deriving DecidableEq, Repr

/-- Outcome of `serial_port.read_line(&mut line)` inside the blocking task:
either `Ok(count)` with the accumulated `line` buffer, or an I/O error of a
given kind. -/
inductive ReadLineOutcome where
  | ok (count : Nat) (line : String)
  | err (kind : IoErrorKind)
deriving DecidableEq, Repr

/-- The body of the `spawn_blocking` closure (`main.rs` lines 300–318): on a
read error it returns `Err` — with the distinguished message
`"Unable to connect to data collection port"` exactly for `BrokenPipe`, and
`"Internal error"` for every other kind; on success it returns `Ok(line)`. -/
def serialTask : ReadLineOutcome → Except String String
  | ReadLineOutcome.ok _ line => Except.ok line
  | ReadLineOutcome.err kind =>
    if kind = IoErrorKind.brokenPipe then
      Except.error "Unable to connect to data collection port"
    else Except.error "Internal error"

/-- Outcome of `tokio::time::timeout(2000ms, serial_future).await`: the outer
`Err` is the timeout, the middle layer is the task join, the inner value is
the closure's own `Result`. -/
inductive AwaitOutcome where
  | elapsed
  | joinError
  | completed (r : Except String String)
deriving DecidableEq, Repr

/-- What the iteration does after the read: use the line, `continue` to the
next iteration, or leave the loop. -/
inductive IterControl where
  | useLine (line : String)
  | nextIteration
  | leaveLoop
deriving DecidableEq, Repr

/-- The `let line = match ... { ... }` handling in the acquisition loop
(`main.rs` lines 320–350): a timeout logs and `continue`s; a join error logs
and `continue`s; a task `Err` — broken pipe included — logs and `continue`s;
only a task `Ok` proceeds with the line. -/
def readStep : AwaitOutcome → IterControl
  | AwaitOutcome.elapsed => IterControl.nextIteration
  | AwaitOutcome.joinError => IterControl.nextIteration
  | AwaitOutcome.completed (Except.error _) => IterControl.nextIteration
  | AwaitOutcome.completed (Except.ok line) => IterControl.useLine line

/-! ## Helper lemmas about the decoder -/

/-- The `u64` accumulator value left by the sample loop: starting from `s`,
fold `sum = (sum + value as u64) % 2^64` over the raw samples. -/
def wrapSum (s : Nat) (raws : List Int) : Nat :=
  raws.foldl (fun a v => (a + i64AsU64 v) % u64Mod) s

theorem wrapSum_nil (s : Nat) : wrapSum s [] = s := rfl

theorem wrapSum_cons (s : Nat) (v : Int) (raws : List Int) :
    wrapSum s (v :: raws) = wrapSum ((s + i64AsU64 v) % u64Mod) raws := rfl

/-- Running the sample loop over tokens that each parse as `i64` yields the
normalized samples in order, the folded `u64` accumulator and the untouched
remaining tokens. -/
theorem parseSamples_spec (samples : List String) (raws : List Int)
    (h : samples.map parseI64 = raws.map some) (rest : List String) (sum0 : Nat) :
    parseSamples samples.length sum0 (samples ++ rest)
      = some (Except.ok (raws.map normalizeSample, wrapSum sum0 raws, rest)) := by
  induction samples generalizing raws sum0 with
  | nil =>
    have : raws = [] := by
      cases raws with
      | nil => rfl
      | cons v vs => simp at h
    subst this
    simp [parseSamples, wrapSum_nil]
  | cons s ss ih =>
    cases raws with
    | nil => simp at h
    | cons v vs =>
      simp only [List.map_cons, List.cons.injEq] at h
      obtain ⟨h1, h2⟩ := h
      simp only [List.length_cons, List.cons_append, parseSamples, h1,
        ih vs h2 ((sum0 + i64AsU64 v) % u64Mod), wrapSum_cons, List.map_cons]

/-- The only error strings the sample loop can produce. -/
theorem parseSamples_error (n : Nat) (sum : Nat) (parts : List String) (e : String)
    (h : parseSamples n sum parts = some (Except.error e)) :
    e = "Missing data" ∨ e = "Failed to parse data" := by
  induction n generalizing sum parts with
  | zero => simp [parseSamples] at h
  | succ n ih =>
    cases parts with
    | nil =>
      simp only [parseSamples, Option.some.injEq, Except.error.injEq] at h
      exact Or.inl h.symm
    | cons p ps =>
      simp only [parseSamples] at h
      split at h
      next =>
        simp only [Option.some.injEq, Except.error.injEq] at h
        exact Or.inr h.symm
      next v hv =>
        split at h
        next => simp at h
        next e2 heq =>
          simp only [Option.some.injEq, Except.error.injEq] at h
          exact ih _ _ (h ▸ heq)
        next => simp at h

/-- Running `parseFields` on a token list of the full frame shape — ten header
tokens, `cnt` sample tokens, a checksum token — with every token parseable:
the outcome is decided solely by comparing the declared checksum against the
wrapped `u64` sample sum. -/
theorem parseFields_spec
    (tsS flS srS laS loS elS fxS spS anS cntS ckS : String)
    (sr la lo el sp an : ℚ) (fx cnt ck : Nat)
    (samples : List String) (raws : List Int)
    (hsr : parseF32 srS = some sr) (hla : parseF32 laS = some la)
    (hlo : parseF32 loS = some lo) (hel : parseF32 elS = some el)
    (hfx : parseU16 fxS = some fx) (hsp : parseF32 spS = some sp)
    (han : parseF32 anS = some an) (hcnt : parseU16 cntS = some cnt)
    (hlen : samples.length = cnt)
    (hsm : samples.map parseI64 = raws.map some)
    (hck : atoiU64 ckS = some ck) :
    parseFields (tsS :: flS :: srS :: laS :: loS :: elS :: fxS :: spS :: anS ::
        cntS :: (samples ++ [ckS]))
      = if ck ≠ wrapSum 0 raws then some (Except.error "Checksum failed")
        else some (Except.ok
          { timestamp := parseI64 tsS
            sample_rate := sr
            flags := { has_gps_fix := flS.data.contains 'G'
                       is_clipping := flS.data.contains 'O' }
            latitude := la
            longitude := lo
            elevation := el
            speed := sp
            angle := an
            fix := fx
            data := raws.map normalizeSample }) := by
  subst hlen
  simp only [parseFields, DataPointFlags.parse, hsr, hla, hlo, hel, hfx, hsp, han,
    hcnt, parseSamples_spec samples raws hsm [ckS] 0, hck]

/-- `normalizeSample` agrees with the spec formula `(r - 512) / 512.0`. -/
theorem normalizeSample_eq_div (r : Int) :
    normalizeSample r = ((r : ℚ) - 512) / 512 := by
  rw [normalizeSample, Rat.mkRat_eq_div]
  push_cast
  ring

/-- The wrapped accumulator equals the sum of the reinterpreted samples,
modulo `2^64`. -/
theorem wrapSum_eq (raws : List Int) :
    ∀ s : Nat, s < u64Mod →
      wrapSum s raws = (s + (raws.map i64AsU64).sum) % u64Mod := by
  induction raws with
  | nil =>
    intro s hs
    simp [wrapSum_nil, Nat.mod_eq_of_lt hs]
  | cons v vs ih =>
    intro s hs
    rw [wrapSum_cons, ih _ (Nat.mod_lt _ (by norm_num [u64Mod]))]
    simp [List.map_cons, List.sum_cons, Nat.mod_add_mod, Nat.add_assoc]

/-- Generalized drain-tick lemma over the starting attempt number `a`: if the
first `k` attempted head tasks succeed and attempt `k + 1` fails, the queue
left behind is everything after the failed task followed by the failed task
itself. -/
theorem drainTick_go (upload : Nat → UploadArgs → Bool) :
    ∀ (q : List UploadArgs) (a k : Nat) (hk : k < q.length),
      (∀ (i : Nat) (hi : i < q.length), i < k → upload (a + i) (q.get ⟨i, hi⟩) = true) →
      upload (a + k) (q.get ⟨k, hk⟩) = false →
      drainTick upload a q = q.drop (k + 1) ++ [q.get ⟨k, hk⟩] := by
  intro q
  induction q with
  | nil =>
    intro a k hk
    exact absurd hk (by simp)
  | cons t rest ih =>
    intro a k hk hsucc hfail
    cases k with
    | zero =>
      have h0 : upload a t = false := by simpa using hfail
      simp [drainTick, h0]
    | succ k =>
      have h0 : upload a t = true := by
        simpa using hsucc 0 (by simp) (Nat.succ_pos k)
      have hk' : k < rest.length := by
        simpa [Nat.succ_lt_succ_iff] using hk
      have hs' : ∀ (i : Nat) (hi : i < rest.length), i < k →
          upload (a + 1 + i) (rest.get ⟨i, hi⟩) = true := by
        intro i hi hik
        have e : a + 1 + i = a + (i + 1) := by omega
        rw [e]
        simpa using hsucc (i + 1) (by simpa [Nat.succ_lt_succ_iff] using hi)
          (Nat.succ_lt_succ hik)
      have hf' : upload (a + 1 + k) (rest.get ⟨k, hk'⟩) = false := by
        have e : a + 1 + k = a + (k + 1) := by omega
        rw [e]
        simpa using hfail
      simp only [drainTick, h0, if_true]
      rw [ih (a + 1) k hk' hs' hf']
      simp

/-- C1 counterexample: in the acquisition loop, a serial read that fails with
a broken-pipe I/O error makes the iteration `continue` — it does not
terminate the loop, contrary to the claim that broken pipe is fatal. -/
theorem C1_counterexample_broken_pipe_continues :
    readStep (AwaitOutcome.completed (serialTask (ReadLineOutcome.err IoErrorKind.brokenPipe)))
        = IterControl.nextIteration ∧
    readStep (AwaitOutcome.completed (serialTask (ReadLineOutcome.err IoErrorKind.brokenPipe)))
        ≠ IterControl.leaveLoop := by
  decide

/-- C1 (amended): every serial read failure — broken pipe, timeout, generic
I/O error, task-join error or the 2-second await elapsing — is handled by
logging and continuing with the next iteration; no read failure leaves the
loop.  Broken pipe is only distinguished by the reader task's error message
`"Unable to connect to data collection port"`. -/
theorem C1_all_read_failures_continue :
    (∀ k : IoErrorKind,
      readStep (AwaitOutcome.completed (serialTask (ReadLineOutcome.err k)))
          = IterControl.nextIteration ∧
      (serialTask (ReadLineOutcome.err k)
            = Except.error "Unable to connect to data collection port" ↔
        k = IoErrorKind.brokenPipe)) ∧
    readStep AwaitOutcome.elapsed = IterControl.nextIteration ∧
    readStep AwaitOutcome.joinError = IterControl.nextIteration :=
  ⟨fun k => by cases k <;> exact ⟨rfl, by decide⟩, rfl, rfl⟩

/-- C2 counterexample: `write_line` does not append its argument verbatim —
it prepends the wall-clock seconds and a comma (here rendered `"1.5"`), so
the appended bytes differ from the argument. -/
theorem C2_counterexample_prefix_added :
    ¬ ((CaptureWriterState.new.write_line "1.5" "x\n").contents
        = CaptureWriterState.new.contents ++ "x\n") := by
  decide

/-- C2 (amended): for every string `text`, `write_line(text)` appends the
current epoch seconds, a comma, then the bytes of `text`; it flushes and
increments `lines_written` by exactly 1. -/
theorem C2_write_line_appends_timestamp_prefixed :
    ∀ (now line : String) (w : CaptureWriterState),
      (w.write_line now line).contents = w.contents ++ now ++ "," ++ line ∧
      (w.write_line now line).flushed = true ∧
      (w.write_line now line).lines_written = w.lines_written + 1 :=
  fun now line w =>
    ⟨by simp [CaptureWriterState.write_line, String.append_assoc], rfl, rfl⟩

/-- C3: `DataPoint::parse` panics (`atoi(...).unwrap()` on `data.rs` line 188)
when the checksum token is present but not parseable, instead of returning an
error value; every other failure shown here is a returned error. -/
theorem C3_unparseable_checksum_token_panics :
    DataPoint.parse "$1,G,1,1,1,1,1,1,1,0,x" = none ∧
    DataPoint.parse "$1,G" = some (Except.error "Missing sample rate") ∧
    DataPoint.parse "$1,G,1,1,1,1,1,1,1,2,aa,1,1"
        = some (Except.error "Failed to parse data") := by
  decide

/-- C6: one drain tick of the offload worker processes the FIFO from the
head in order; each successful upload removes its task permanently, and the
first failed upload (attempt `k + 1` on the task at index `k`) is re-enqueued
at the tail, stopping the drain for this tick with all not-yet-attempted
tasks left ahead of it in their relative order. -/
theorem C6_drain_tick_ordering (upload : Nat → UploadArgs → Bool)
    (q : List UploadArgs) (k : Nat) (hk : k < q.length)
    (hsucc : ∀ (i : Nat) (hi : i < q.length), i < k →
      upload (i + 1) (q.get ⟨i, hi⟩) = true)
    (hfail : upload (k + 1) (q.get ⟨k, hk⟩) = false) :
    drainTick upload 1 q = q.drop (k + 1) ++ [q.get ⟨k, hk⟩] := by
  have hs : ∀ (i : Nat) (hi : i < q.length), i < k →
      upload (1 + i) (q.get ⟨i, hi⟩) = true := by
    intro i hi hik
    rw [Nat.add_comm 1 i]
    exact hsucc i hi hik
  have hf : upload (1 + k) (q.get ⟨k, hk⟩) = false := by
    rw [Nat.add_comm 1 k]
    exact hfail
  exact drainTick_go upload q 1 k hk hs hf

/-- C6 witness: three queued tasks and an uploader failing only on the 2nd
attempt of the tick — task 1 completes, task 2 ends at the tail, task 3 is
not attempted in this tick. -/
theorem C6_drain_tick_ordering_witness :
    drainTick (fun a _ => decide (a ≠ 2)) 1
        [⟨"captures", "f1.csv", "node/f1.csv"⟩,
         ⟨"captures", "f2.csv", "node/f2.csv"⟩,
         ⟨"captures", "f3.csv", "node/f3.csv"⟩]
      = [⟨"captures", "f3.csv", "node/f3.csv"⟩,
         ⟨"captures", "f2.csv", "node/f2.csv"⟩] := by
  have h := C6_drain_tick_ordering (fun a _ => decide (a ≠ 2))
    [⟨"captures", "f1.csv", "node/f1.csv"⟩,
     ⟨"captures", "f2.csv", "node/f2.csv"⟩,
     ⟨"captures", "f3.csv", "node/f3.csv"⟩] 1 (by decide)
    (fun i hi hik => by
      have h0 : i = 0 := by omega
      subst h0
      rfl)
    (by decide)
  exact h.trans (by decide)

/-- The error strings `parseFields` can actually produce.  The string
`"Failed to parse flags"` from the dead branch of `DataPoint::parse` is
deliberately absent. -/
def reachableParseErrors : List String :=
  ["Missing timestamp", "Missing flags", "Missing sample rate",
   "Failed to parse sample rate", "Missing latitude", "Failed to parse latitude",
   "Missing longitude", "Failed to parse longitude", "Missing elevation",
   "Failed to parse elevation", "Missing fix", "Failed to parse fix",
   "Missing speed", "Failed to parse speed", "Missing angle",
   "Failed to parse angle", "Missing data count", "Failed to parse data count",
   "Missing data", "Failed to parse data", "Missing checksum", "Checksum failed"]

/-- C8: `DataPointFlags::parse` never fails: for every input it returns `Ok`
with `has_gps_fix` iff the input contains `G` and `is_clipping` iff it
contains `O` (case-sensitively, all other characters ignored); consequently
every error `DataPoint::parse` can return lies in `reachableParseErrors`,
which omits `"Failed to parse flags"` — that branch is unreachable. -/
theorem C8_flags_parse_total :
    (∀ s : String, DataPointFlags.parse s
        = Except.ok { has_gps_fix := s.data.contains 'G'
                      is_clipping := s.data.contains 'O' }) ∧
    (∀ (parts : List String) (e : String),
      parseFields parts = some (Except.error e) → e ∈ reachableParseErrors) ∧
    DataPointFlags.parse "go" = Except.ok { has_gps_fix := false, is_clipping := false } ∧
    DataPointFlags.parse "zGxO!" = Except.ok { has_gps_fix := true, is_clipping := true } := by
  refine ⟨fun s => rfl, fun parts e h => ?_, by decide, by decide⟩
  simp only [parseFields, DataPointFlags.parse] at h
  repeat' split at h
  all_goals try (simp_all [reachableParseErrors])
  rename_i e2 heq
  rcases parseSamples_error _ _ _ _ heq with h1 | h1 <;>
    simp_all [reachableParseErrors]

/-- C8 witness: the flags token `"G"` parses to a GPS fix, and a concrete
failing frame's error is one of the reachable errors (and is not the flags
error). -/
theorem C8_flags_parse_total_witness :
    DataPointFlags.parse "G"
        = Except.ok { has_gps_fix := true, is_clipping := false } ∧
    parseFields ["1", "G"] = some (Except.error "Missing sample rate") ∧
    "Missing sample rate" ∈ reachableParseErrors := by
  have h := C8_flags_parse_total
  exact ⟨(h.1 "G").trans (by decide), by decide,
    h.2.1 ["1", "G"] "Missing sample rate" (by decide)⟩

/-- C10: `comment` increments `lines_written` by exactly 1, `init` leaves it
unchanged, a fresh writer starts at 0, and no completing writer operation
ever decreases it. -/
theorem C10_lines_written_monotone :
    CaptureWriterState.new.lines_written = 0 ∧
    (∀ (now c : String) (w : CaptureWriterState),
      (w.comment now c).lines_written = w.lines_written + 1) ∧
    (∀ (m : String) (w : CaptureWriterState),
      (w.init m).lines_written = w.lines_written) ∧
    (∀ (op : WriterOp) (w : CaptureWriterState),
      w.lines_written ≤ (applyWriterOp op w).lines_written) := by
  refine ⟨rfl, fun now c w => rfl, fun m w => rfl, fun op w => ?_⟩
  cases op <;>
    simp [applyWriterOp, CaptureWriterState.init, CaptureWriterState.write_line,
      CaptureWriterState.comment]

/-- C5: on a frame line whose tokens all parse and whose declared checksum
equals the (wrapped `u64`) sum of the raw samples, `DataPoint::parse`
succeeds and every field round-trips exactly: the timestamp is the parsed
token, flags come from the flags token, the numeric fields are the parsed
token values, and the samples are the normalized raw values in order. -/
theorem C5_parse_success_roundtrip
    (line tsS flS srS laS loS elS fxS spS anS cntS ckS : String)
    (sr la lo el sp an : ℚ) (fx cnt ck : Nat)
    (samples : List String) (raws : List Int)
    (hsplit : splitComma (stripDollar line)
      = tsS :: flS :: srS :: laS :: loS :: elS :: fxS :: spS :: anS :: cntS ::
          (samples ++ [ckS]))
    (hsr : parseF32 srS = some sr) (hla : parseF32 laS = some la)
    (hlo : parseF32 loS = some lo) (hel : parseF32 elS = some el)
    (hfx : parseU16 fxS = some fx) (hsp : parseF32 spS = some sp)
    (han : parseF32 anS = some an) (hcnt : parseU16 cntS = some cnt)
    (hlen : samples.length = cnt)
    (hsm : samples.map parseI64 = raws.map some)
    (hck : atoiU64 ckS = some ck)
    (hsum : ck = wrapSum 0 raws) :
    DataPoint.parse line = some (Except.ok
      { timestamp := parseI64 tsS
        sample_rate := sr
        flags := { has_gps_fix := flS.data.contains 'G'
                   is_clipping := flS.data.contains 'O' }
        latitude := la
        longitude := lo
        elevation := el
        speed := sp
        angle := an
        fix := fx
        data := raws.map normalizeSample }) := by
  unfold DataPoint.parse
  rw [hsplit, parseFields_spec tsS flS srS laS loS elS fxS spS anS cntS ckS
    sr la lo el sp an fx cnt ck samples raws hsr hla hlo hel hfx hsp han hcnt
    hlen hsm hck]
  simp [hsum]

/-- C5 witness: the spec scenario line parses to the expected frame
(timestamp `Some 1700000000`, GPS fix set, samples `(600-512)/512` and
`(424-512)/512`). -/
theorem C5_parse_success_roundtrip_witness :
    DataPoint.parse "$1700000000,G,20000,37.1,-122.1,10.0,3,45.0,1.0,2,600,424,1024"
      = some (Except.ok
        { timestamp := some 1700000000
          sample_rate := 20000
          flags := { has_gps_fix := true, is_clipping := false }
          latitude := mkRat 371 10
          longitude := mkRat (-1221) 10
          elevation := 10
          speed := 45
          angle := 1
          fix := 3
          data := [(600 - 512) / 512, (424 - 512) / 512] }) := by
  have h := C5_parse_success_roundtrip
    "$1700000000,G,20000,37.1,-122.1,10.0,3,45.0,1.0,2,600,424,1024"
    "1700000000" "G" "20000" "37.1" "-122.1" "10.0" "3" "45.0" "1.0" "2" "1024"
    (mkRat 20000 1) (mkRat 371 10) (mkRat (-1221) 10) (mkRat 100 10)
    (mkRat 450 10) (mkRat 10 10) 3 2 1024 ["600", "424"] [600, 424]
    (by decide) (by decide) (by decide) (by decide) (by decide) (by decide)
    (by decide) (by decide) (by decide) (by decide) (by decide) (by decide)
    (by decide)
  refine h.trans ?_
  have e1 : parseI64 "1700000000" = some 1700000000 := by decide
  have e2 : (("G" : String).data.contains 'G') = true := by decide
  have e3 : (("G" : String).data.contains 'O') = false := by decide
  have e4 : mkRat 20000 1 = (20000 : ℚ) := by decide
  have e5 : mkRat 100 10 = (10 : ℚ) := by decide
  have e6 : mkRat 450 10 = (45 : ℚ) := by decide
  have e7 : mkRat 10 10 = (1 : ℚ) := by decide
  have e8 : List.map normalizeSample [(600 : Int), 424]
      = [(600 - 512) / 512, (424 - 512) / 512] := by
    simp only [List.map_cons, List.map_nil, normalizeSample_eq_div]
    norm_num
  rw [e1, e2, e3, e4, e5, e6, e7, e8]

/-- C4: on a frame line whose tokens all parse but whose declared checksum
differs from the (wrapped `u64`) sum of the raw samples, `DataPoint::parse`
returns the checksum-specific error and no frame value. -/
theorem C4_checksum_mismatch_error
    (line tsS flS srS laS loS elS fxS spS anS cntS ckS : String)
    (sr la lo el sp an : ℚ) (fx cnt ck : Nat)
    (samples : List String) (raws : List Int)
    (hsplit : splitComma (stripDollar line)
      = tsS :: flS :: srS :: laS :: loS :: elS :: fxS :: spS :: anS :: cntS ::
          (samples ++ [ckS]))
    (hsr : parseF32 srS = some sr) (hla : parseF32 laS = some la)
    (hlo : parseF32 loS = some lo) (hel : parseF32 elS = some el)
    (hfx : parseU16 fxS = some fx) (hsp : parseF32 spS = some sp)
    (han : parseF32 anS = some an) (hcnt : parseU16 cntS = some cnt)
    (hlen : samples.length = cnt)
    (hsm : samples.map parseI64 = raws.map some)
    (hck : atoiU64 ckS = some ck)
    (hne : ck ≠ wrapSum 0 raws) :
    DataPoint.parse line = some (Except.error "Checksum failed") := by
  unfold DataPoint.parse
  rw [hsplit, parseFields_spec tsS flS srS laS loS elS fxS spS anS cntS ckS
    sr la lo el sp an fx cnt ck samples raws hsr hla hlo hel hfx hsp han hcnt
    hlen hsm hck]
  simp [hne]

/-- C4 witness: the spec scenario line with checksum `1023` (instead of
`600 + 424 = 1024`) is rejected with the checksum error. -/
theorem C4_checksum_mismatch_error_witness :
    DataPoint.parse "$1700000000,G,20000,37.1,-122.1,10.0,3,45.0,1.0,2,600,424,1023"
      = some (Except.error "Checksum failed") :=
  C4_checksum_mismatch_error
    "$1700000000,G,20000,37.1,-122.1,10.0,3,45.0,1.0,2,600,424,1023"
    "1700000000" "G" "20000" "37.1" "-122.1" "10.0" "3" "45.0" "1.0" "2" "1023"
    (mkRat 20000 1) (mkRat 371 10) (mkRat (-1221) 10) (mkRat 100 10)
    (mkRat 450 10) (mkRat 10 10) 3 2 1023 ["600", "424"] [600, 424]
    (by decide) (by decide) (by decide) (by decide) (by decide) (by decide)
    (by decide) (by decide) (by decide) (by decide) (by decide) (by decide)
    (by decide)

/-- C7: every raw sample `r` accepted by a successful parse is stored as the
normalized value `(r - 512) / 512`; in particular raw `512` maps to `0`, raw
`0` to `-1`, and raw `1023` to `511/512`. -/
theorem C7_normalized_sample_values
    (line tsS flS srS laS loS elS fxS spS anS cntS ckS : String)
    (sr la lo el sp an : ℚ) (fx cnt ck : Nat)
    (samples : List String) (raws : List Int)
    (hsplit : splitComma (stripDollar line)
      = tsS :: flS :: srS :: laS :: loS :: elS :: fxS :: spS :: anS :: cntS ::
          (samples ++ [ckS]))
    (hsr : parseF32 srS = some sr) (hla : parseF32 laS = some la)
    (hlo : parseF32 loS = some lo) (hel : parseF32 elS = some el)
    (hfx : parseU16 fxS = some fx) (hsp : parseF32 spS = some sp)
    (han : parseF32 anS = some an) (hcnt : parseU16 cntS = some cnt)
    (hlen : samples.length = cnt)
    (hsm : samples.map parseI64 = raws.map some)
    (hck : atoiU64 ckS = some ck)
    (hsum : ck = wrapSum 0 raws) :
    (∃ d : DataPoint, DataPoint.parse line = some (Except.ok d) ∧
      d.data = raws.map (fun r : Int => ((r : ℚ) - 512) / 512)) ∧
    normalizeSample 512 = 0 ∧ normalizeSample 0 = -1 ∧
    normalizeSample 1023 = 511 / 512 := by
  have hnorm : normalizeSample = fun r : Int => ((r : ℚ) - 512) / 512 :=
    funext normalizeSample_eq_div
  refine ⟨⟨{ timestamp := parseI64 tsS
             sample_rate := sr
             flags := { has_gps_fix := flS.data.contains 'G'
                        is_clipping := flS.data.contains 'O' }
             latitude := la
             longitude := lo
             elevation := el
             speed := sp
             angle := an
             fix := fx
             data := raws.map normalizeSample }, ?_, ?_⟩,
    by decide, by decide, ?_⟩
  · unfold DataPoint.parse
    rw [hsplit, parseFields_spec tsS flS srS laS loS elS fxS spS anS cntS ckS
      sr la lo el sp an fx cnt ck samples raws hsr hla hlo hel hfx hsp han hcnt
      hlen hsm hck]
    simp [hsum]
  · show raws.map normalizeSample = raws.map (fun r : Int => ((r : ℚ) - 512) / 512)
    rw [hnorm]
  · rw [normalizeSample_eq_div]
    norm_num

/-- C7 witness: the frame with samples `512, 0, 1023` (checksum `1535`)
parses with stored data `[0, -1, 511/512]`. -/
theorem C7_normalized_sample_values_witness :
    (∃ d : DataPoint, DataPoint.parse "$1,G,1,1,1,1,1,1,1,3,512,0,1023,1535"
        = some (Except.ok d) ∧
      d.data = [0, -1, 511 / 512]) ∧ normalizeSample 512 = 0 := by
  have h := C7_normalized_sample_values "$1,G,1,1,1,1,1,1,1,3,512,0,1023,1535"
    "1" "G" "1" "1" "1" "1" "1" "1" "1" "3" "1535"
    (mkRat 1 1) (mkRat 1 1) (mkRat 1 1) (mkRat 1 1) (mkRat 1 1) (mkRat 1 1)
    1 3 1535 ["512", "0", "1023"] [512, 0, 1023]
    (by decide) (by decide) (by decide) (by decide) (by decide) (by decide)
    (by decide) (by decide) (by decide) (by decide) (by decide) (by decide)
    (by decide)
  obtain ⟨⟨d, hd1, hd2⟩, h512, _, _⟩ := h
  refine ⟨⟨d, hd1, hd2.trans ?_⟩, h512⟩
  norm_num

/-- C9: with all tokens parseable, a frame is accepted exactly when the
declared checksum equals the sum of the raw samples reinterpreted as `u64`
values, taken modulo `2^64` — negative raw samples are accepted and
contribute their two's-complement reinterpretation `v + 2^64`. -/
theorem C9_checksum_wraps_mod_u64
    (line tsS flS srS laS loS elS fxS spS anS cntS ckS : String)
    (sr la lo el sp an : ℚ) (fx cnt ck : Nat)
    (samples : List String) (raws : List Int)
    (hsplit : splitComma (stripDollar line)
      = tsS :: flS :: srS :: laS :: loS :: elS :: fxS :: spS :: anS :: cntS ::
          (samples ++ [ckS]))
    (hsr : parseF32 srS = some sr) (hla : parseF32 laS = some la)
    (hlo : parseF32 loS = some lo) (hel : parseF32 elS = some el)
    (hfx : parseU16 fxS = some fx) (hsp : parseF32 spS = some sp)
    (han : parseF32 anS = some an) (hcnt : parseU16 cntS = some cnt)
    (hlen : samples.length = cnt)
    (hsm : samples.map parseI64 = raws.map some)
    (hck : atoiU64 ckS = some ck) :
    ((∃ d : DataPoint, DataPoint.parse line = some (Except.ok d)) ↔
      ck = (raws.map i64AsU64).sum % u64Mod) ∧
    (∀ v : Int, -(2 ^ 63) ≤ v → v < 0 → (i64AsU64 v : Int) = v + 2 ^ 64) := by
  constructor
  · have hw : wrapSum 0 raws = (raws.map i64AsU64).sum % u64Mod := by
      simpa using wrapSum_eq raws 0 (by norm_num [u64Mod])
    have hparse : DataPoint.parse line = parseFields (tsS :: flS :: srS :: laS ::
        loS :: elS :: fxS :: spS :: anS :: cntS :: (samples ++ [ckS])) := by
      unfold DataPoint.parse
      rw [hsplit]
    rw [parseFields_spec tsS flS srS laS loS elS fxS spS anS cntS ckS
      sr la lo el sp an fx cnt ck samples raws hsr hla hlo hel hfx hsp han hcnt
      hlen hsm hck] at hparse
    rcases eq_or_ne ck (wrapSum 0 raws) with he | hne
    · simp only [he, ne_eq, not_true_eq_false, if_false] at hparse
      exact iff_of_true ⟨_, hparse⟩ (he.trans hw)
    · simp only [hne, ne_eq, not_false_eq_true, if_true] at hparse
      refine iff_of_false ?_ (fun hc => hne (hc.trans hw.symm))
      rintro ⟨d, hd⟩
      rw [hparse] at hd
      exact Except.noConfusion (Option.some.inj hd)
  · intro v h1 h2
    have hm : ((u64Mod : Nat) : Int) = 18446744073709551616 := by
      norm_num [u64Mod]
    have h3 : -(18446744073709551616 : Int) < v := by omega
    simp only [i64AsU64, hm]
    omega

/-- C9 witness: the frame with raw samples `-1, 2` is accepted with declared
checksum `1 = (2^64 - 1 + 2) mod 2^64`, and `-1` reinterprets as
`2^64 - 1`. -/
theorem C9_checksum_wraps_mod_u64_witness :
    (∃ d : DataPoint, DataPoint.parse "$1,G,1,1,1,1,1,1,1,2,-1,2,1"
        = some (Except.ok d)) ∧
    (i64AsU64 (-1) : Int) = -1 + 2 ^ 64 := by
  have h := C9_checksum_wraps_mod_u64 "$1,G,1,1,1,1,1,1,1,2,-1,2,1"
    "1" "G" "1" "1" "1" "1" "1" "1" "1" "2" "1"
    (mkRat 1 1) (mkRat 1 1) (mkRat 1 1) (mkRat 1 1) (mkRat 1 1) (mkRat 1 1)
    1 2 1 ["-1", "2"] [-1, 2]
    (by decide) (by decide) (by decide) (by decide) (by decide) (by decide)
    (by decide) (by decide) (by decide) (by decide) (by decide) (by decide)
  exact ⟨h.1.mpr (by decide), h.2 (-1) (by norm_num) (by norm_num)⟩
